import Mathlib

/-!
Shallow Lean embedding of the myquantworld repository, written from the
Python sources:
  src/data_storage/db_storage.py   (daily-bar and basic-info persistence)
  src/data_fetching/base_client.py (retry policy, error recording, health)
  src/backend/main.py              (staleness detector is_data_outdated)
  src/analysis/polar_analyzer.py   (pattern recognition and prediction)
  src/analysis/technical_analyzer.py (indicator computation, RSI)
  src/data_processing/data_processor.py (bar-table cleaning)

Modelling conventions:
  * Python floats are embedded as rationals (ℚ) except for the pandas
    column model, which uses ℝ because rolling standard deviations take
    square roots.  Properties proved here do not depend on rounding.
  * A trade date is the numeric value of its 8-digit YYYYMMDD form; the
    source parses such strings with strptime, which is injective on them.
  * Python exceptions are an explicit inductive type; fallible calls
    return Except values.  SQLAlchemy sessions are explicit list states.
  * dict.get defaults in the storage layer only apply to absent keys;
    records here carry all eight bar fields, matching the claims.
-/

/-! ## Generic insertion sort used to model ORDER BY / sort_values -/

def insertLe {α : Type} (le : α → α → Bool) (a : α) : List α → List α
  | [] => [a]
  | b :: bs => if le a b then a :: b :: bs else b :: insertLe le a bs

def sortLe {α : Type} (le : α → α → Bool) (l : List α) : List α :=
  l.foldr (insertLe le) []

/-! ## Storage layer: src/data_storage/db_storage.py -/

namespace DbStorage

/-- One record of the daily-bar input (a row of the DataFrame passed to
save_stock_daily_data, after to_dict).  trade_date is the numeric value
of the 8-digit date. -/
structure BarRecord where
  trade_date : ℕ
  open_price : ℚ
  high_price : ℚ
  low_price : ℚ
  close_price : ℚ
  volume : ℚ
  amount : ℚ
  change_percent : ℚ
  turnover_rate : ℚ
deriving DecidableEq

/-- One persisted StockDailyData row (database/models.py). -/
structure DailyRow where
  stock_code : String
  trade_date : ℕ
  open_price : ℚ
  high_price : ℚ
  low_price : ℚ
  close_price : ℚ
  volume : ℚ
  amount : ℚ
  change_percent : ℚ
  turnover_rate : ℚ
deriving DecidableEq

/-- The filter StockDailyData.stock_code == code AND trade_date == date. -/
def matchesKey (code : String) (d : ℕ) (x : DailyRow) : Bool :=
  x.stock_code == code && x.trade_date == d

/-- Field assignments performed on an existing row (update branch of
save_stock_daily_data). -/
def updateRow (r : BarRecord) (x : DailyRow) : DailyRow :=
  { x with open_price := r.open_price, high_price := r.high_price,
           low_price := r.low_price, close_price := r.close_price,
           volume := r.volume, amount := r.amount,
           change_percent := r.change_percent,
           turnover_rate := r.turnover_rate }

/-- The StockDailyData constructor call (insert branch). -/
def newRow (code : String) (r : BarRecord) : DailyRow :=
  ⟨code, r.trade_date, r.open_price, r.high_price, r.low_price,
   r.close_price, r.volume, r.amount, r.change_percent, r.turnover_rate⟩

/-- query(...).first() followed by in-place update: only the first row
matching the key is updated. -/
def updateFirst (code : String) (d : ℕ) (f : DailyRow → DailyRow) :
    List DailyRow → List DailyRow
  | [] => []
  | x :: xs =>
    if matchesKey code d x then f x :: xs else x :: updateFirst code d f xs

/-- One iteration of the save loop: look up an existing (stock_code,
trade_date) row; update it if present, else add a new row. -/
def saveOne (db : List DailyRow) (code : String) (r : BarRecord) :
    List DailyRow :=
  if db.any (matchesKey code r.trade_date) then
    updateFirst code r.trade_date (updateRow r) db
  else db ++ [newRow code r]

/-- save_stock_daily_data: empty DataFrame input returns True at once;
otherwise each record is inserted or updated in order, then committed.
The exception branch (rollback, return False) is unreachable in the pure
model, where date parsing and commit cannot fail. -/
def save_stock_daily_data (db : List DailyRow) (code : String)
    (items : List BarRecord) : List DailyRow × Bool :=
  if items.isEmpty then (db, true)
  else (items.foldl (fun d r => saveOne d code r) db, true)

/-- Row shape returned by the read path (trade_date plus the eight bar
fields, no stock_code). -/
structure DailyOut where
  trade_date : ℕ
  open_price : ℚ
  high_price : ℚ
  low_price : ℚ
  close_price : ℚ
  volume : ℚ
  amount : ℚ
  change_percent : ℚ
  turnover_rate : ℚ
deriving DecidableEq

def toOut (x : DailyRow) : DailyOut :=
  ⟨x.trade_date, x.open_price, x.high_price, x.low_price, x.close_price,
   x.volume, x.amount, x.change_percent, x.turnover_rate⟩

/-- Optional start/end date filters of the read query. -/
def inRange (startD endD : Option ℕ) (d : ℕ) : Bool :=
  (match startD with | some s => decide (s ≤ d) | none => true) &&
  (match endD with | some e => decide (d ≤ e) | none => true)

/-- _get_stock_daily_data_internal: filter by stock code and optional
date range, order by trade_date ascending, project to result rows. -/
def get_stock_daily_data (db : List DailyRow) (code : String)
    (startD endD : Option ℕ) : List DailyOut :=
  ((sortLe (fun a b => decide (a.trade_date ≤ b.trade_date))
      (db.filter (fun x =>
        x.stock_code == code && inRange startD endD x.trade_date))).map toOut)

/-- One record of the basic-info input of save_stock_basic_info. -/
structure StockRecord where
  code : String
  name : String
  market : String
  industry : String
  area : String
  list_date : Option ℕ
deriving DecidableEq

/-- One persisted Stock row. -/
structure StockRow where
  stock_code : String
  stock_name : String
  market : String
  industry : String
  area : String
  list_date : Option ℕ
deriving DecidableEq

def updateStock (r : StockRecord) (x : StockRow) : StockRow :=
  { x with stock_name := r.name, market := r.market,
           industry := r.industry, area := r.area,
           list_date := r.list_date }

def newStock (r : StockRecord) : StockRow :=
  ⟨r.code, r.name, r.market, r.industry, r.area, r.list_date⟩

def updateFirstStock (code : String) (f : StockRow → StockRow) :
    List StockRow → List StockRow
  | [] => []
  | x :: xs =>
    if x.stock_code == code then f x :: xs
    else x :: updateFirstStock code f xs

def saveStockOne (db : List StockRow) (r : StockRecord) : List StockRow :=
  if db.any (fun x => x.stock_code == r.code) then
    updateFirstStock r.code (updateStock r) db
  else db ++ [newStock r]

/-- save_stock_basic_info: empty DataFrame input returns True at once;
otherwise each record is inserted or updated in order. -/
def save_stock_basic_info (db : List StockRow)
    (items : List StockRecord) : List StockRow × Bool :=
  if items.isEmpty then (db, true)
  else (items.foldl saveStockOne db, true)

end DbStorage

/-! ## Data-provider contract: src/data_fetching/base_client.py -/

namespace BaseClient

/-- Python exceptions, split into the network class caught by the retry
loop (ConnectionError, TimeoutError) and everything else. -/
inductive PyExn where
  | connectionError (msg : String)
  | timeoutError (msg : String)
  | other (typeName msg : String)
deriving DecidableEq

/-- Whether the exception is caught by the (ConnectionError, TimeoutError)
clause of _retry_with_backoff. -/
def PyExn.isNetwork : PyExn → Bool
  | .connectionError _ => true
  | .timeoutError _ => true
  | .other _ _ => false

/-- exception.__class__.__name__, as stored by _record_error. -/
def PyExn.typeName : PyExn → String
  | .connectionError _ => "ConnectionError"
  | .timeoutError _ => "TimeoutError"
  | .other n _ => n

/-- str(exception). -/
def PyExn.str : PyExn → String
  | .connectionError m => m
  | .timeoutError m => m
  | .other _ m => m

/-- A pandas DataFrame as returned by the provider operations: named
columns of rational cells.  Only construction and emptiness matter to
the claims about the contract. -/
structure Table where
  cols : List (String × List ℚ)
deriving DecidableEq

/-- pd.DataFrame(): the empty result every public operation falls back
to on error. -/
def emptyTable : Table := ⟨[]⟩

/-- The _last_error record written by _record_error. -/
structure ErrorRecord where
  message : String
  exception_type : String
  context : List (String × String)
deriving DecidableEq

/-- The client's error-tracking state (_last_error, _last_error_time).
Timestamps are integer seconds. -/
structure ClientState where
  last_error : Option ErrorRecord
  last_error_time : Option ℤ
deriving DecidableEq

/-- _record_error: overwrite the last error (message, exception type
name, context) and stamp the current time. -/
def record_error (now : ℤ) (message : String) (e : PyExn)
    (ctx : List (String × String)) : ClientState :=
  { last_error := some ⟨message, e.typeName, ctx⟩,
    last_error_time := some now }

/-- Outcome of one _retry_with_backoff run: final result, number of
attempts actually made, the sleeps performed (seconds, in order), and
the message/exception recorded by _record_error inside the loop. -/
structure RetryResult (α : Type) where
  result : Except PyExn α
  attempts : ℕ
  sleeps : List ℕ
  recorded : Option (String × PyExn)

/-- Loop body of _retry_with_backoff.  The attempt function is indexed
by the zero-based retry counter; fuel is the number of loop iterations
remaining (so the Python guard retry < max_retries - 1 is fuel ≥ 2). -/
def retryGo {α : Type} (f : ℕ → Except PyExn α) (delay retry : ℕ) :
    ℕ → RetryResult α
  | 0 => ⟨.error (.other "StopIteration" "range exhausted"), 0, [], none⟩
  | fuel + 1 =>
    match f retry with
    | .ok a => ⟨.ok a, 1, [], none⟩
    | .error e =>
      if e.isNetwork then
        match fuel with
        | 0 =>
          ⟨.error e, 1, [],
           some ("网络连接失败，已重试3次: " ++ e.str, e)⟩
        | fuel2 + 1 =>
          let r := retryGo f delay (retry + 1) (fuel2 + 1)
          ⟨r.result, r.attempts + 1, delay * 2 ^ retry :: r.sleeps,
           r.recorded⟩
      else ⟨.error e, 1, [], some ("执行失败: " ++ e.str, e)⟩

/-- _retry_with_backoff with the constructor constants _max_retries = 3
and _retry_delay = 2. -/
def retry_with_backoff {α : Type} (f : ℕ → Except PyExn α) :
    RetryResult α :=
  retryGo f 2 0 3

/-- _handle_request_error: log, record the error with context, and
return an empty DataFrame. -/
def handle_request_error (now : ℤ) (e : PyExn)
    (className funcName : String) (ctx : List (String × String)) :
    Table × ClientState :=
  (emptyTable,
   record_error now
     (className ++ "." ++ funcName ++ " 执行失败: " ++ e.str) e ctx)

/-- The shape shared by every public operation of the contract
(get_stock_basic_info, get_stock_daily_data, ...): run the retried
implementation; on success return its DataFrame; on any exception
convert it into an empty DataFrame via _handle_request_error.  State
updates made by _record_error inside the retry loop are applied first
and then overwritten by the wrapper's own record. -/
def public_fetch (st : ClientState) (now : ℤ)
    (className funcName : String) (ctx : List (String × String))
    (impl : ℕ → Except PyExn Table) : Table × ClientState :=
  let r := retry_with_backoff impl
  let st1 := match r.recorded with
             | some (msg, e) => record_error now msg e []
             | none => st
  match r.result with
  | .ok df => (df, st1)
  | .error e =>
    let _ := st1
    handle_request_error now e className funcName ctx

/-- Guard of is_healthy: an error recorded within the last 300 seconds.
A last_error_time of None is falsy in the source. -/
def hasRecentError (st : ClientState) (now : ℤ) : Bool :=
  match st.last_error_time with
  | some t => decide (now - t < 300)
  | none => false

/-- isinstance(df, pd.DataFrame): in this embedding every value the
wrapper can return is a DataFrame, so the test holds of any table. -/
def isinstance_dataframe (_df : Table) : Bool := true

/-- is_healthy: unhealthy when an error was recorded within the last
300 seconds; with check_api set, additionally calls
get_stock_basic_info (via the public wrapper, which never throws) and
returns whether the result is a DataFrame instance. -/
def is_healthy (st : ClientState) (now : ℤ) (check_api : Bool)
    (className : String) (impl : ℕ → Except PyExn Table) : Bool :=
  if hasRecentError st now then false
  else if check_api then
    isinstance_dataframe
      (public_fetch st now className "get_stock_basic_info" [] impl).1
  else true

end BaseClient

/-! ## Staleness detector: src/backend/main.py is_data_outdated -/

namespace BackendMain

open BaseClient in
/-- is_data_outdated.  Dates are integer day numbers, so the Python
(today - latest).days is today - latest.  getLatest models
db_storage.get_latest_stock_date together with the surrounding session
setup (whose failure the outer bare except turns into True);
get_trade_dates models ak_client.get_trade_dates over the gap, whose
failure the inner bare except turns into True. -/
def is_data_outdated (getLatest : Except PyExn (Option ℤ)) (today : ℤ)
    (days_threshold : ℤ)
    (get_trade_dates : ℤ → ℤ → Except PyExn (List ℤ)) : Bool :=
  match getLatest with
  | .error _ => true
  | .ok none => true
  | .ok (some latest) =>
    if days_threshold < today - latest then
      match get_trade_dates (latest + 1) today with
      | .ok ds => decide (0 < ds.length)
      | .error _ => true
    else false

end BackendMain

/-! ## Pattern/Prediction analyzer: src/analysis/polar_analyzer.py -/

namespace PolarAnalyzer

/-- A bar table as consumed by PolarAnalyzer: the three price columns it
reads.  All columns of one DataFrame share the row count, taken here
from close_price. -/
structure BarTable where
  close_price : List ℚ
  high_price : List ℚ
  low_price : List ℚ
deriving DecidableEq

/-- len(df): the row count. -/
def BarTable.length (df : BarTable) : ℕ := df.close_price.length

/-- df.empty. -/
def BarTable.isEmpty (df : BarTable) : Bool := df.length == 0

/-- One entry of the pattern list built by recognize_patterns. -/
structure Pattern where
  pattern_name : String
  confidence : ℚ
  prediction : String
  details : String
deriving DecidableEq

/-- prices[i] of the numpy value array (indices stay in bounds in the
source loops; out-of-range reads default to 0 and are never taken). -/
def pget (l : List ℚ) (i : ℕ) : ℚ := l.getD i 0

/-- Indices i in range(1, len-1) with prices[i] above both neighbors
(the local-maximum scan of _detect_head_shoulder_top). -/
def localMaxIndices (prices : List ℚ) : List ℕ :=
  (List.range prices.length).filter (fun i =>
    decide (1 ≤ i) && decide (i + 1 < prices.length) &&
    decide (pget prices (i - 1) < pget prices i) &&
    decide (pget prices (i + 1) < pget prices i))

/-- Indices i in range(1, len-1) with prices[i] below both neighbors
(the local-minimum scan of _detect_double_bottom). -/
def localMinIndices (prices : List ℚ) : List ℕ :=
  (List.range prices.length).filter (fun i =>
    decide (1 ≤ i) && decide (i + 1 < prices.length) &&
    decide (pget prices i < pget prices (i - 1)) &&
    decide (pget prices i < pget prices (i + 1)))

/-- _detect_head_shoulder_top: after the guards, the simplified
implementation always returns False. -/
def detect_head_shoulder_top (df : BarTable) : Bool :=
  if df.length < 20 then false
  else
    let maxIdx := localMaxIndices df.close_price
    if maxIdx.length < 3 then false
    else false

/-- _detect_double_bottom: after the guards, the simplified
implementation always returns False. -/
def detect_double_bottom (df : BarTable) : Bool :=
  if df.length < 20 then false
  else
    let minIdx := localMinIndices df.close_price
    if minIdx.length < 2 then false
    else false

/-- Slope of np.polyfit(range(n), ys, 1): the least-squares line slope
(n·Σxy − Σx·Σy) / (n·Σx² − (Σx)²) with x = 0, 1, ..., n−1. -/
def lsSlope (ys : List ℚ) : ℚ :=
  let n : ℚ := (ys.length : ℚ)
  let xs : List ℚ := (List.range ys.length).map (fun i => (i : ℚ))
  let sx := xs.sum
  let sy := ys.sum
  let sxy := (List.zipWith (fun x y => x * y) xs ys).sum
  let sxx := (xs.map (fun x => x * x)).sum
  (n * sxy - sx * sy) / (n * sxx - sx * sx)

/-- _detect_ascending_triangle: fits a degree-1 polynomial to the high
and the low series; matches when the low slope is positive and the
absolute high slope is below it. -/
def detect_ascending_triangle (df : BarTable) : Bool :=
  if df.length < 20 then false
  else
    let high_trend := lsSlope df.high_price
    let low_trend := lsSlope df.low_price
    decide (0 < low_trend) && decide (|high_trend| < low_trend)

def headShoulderPattern : Pattern :=
  ⟨"头肩顶", 75 / 100, "看跌", "检测到潜在的头肩顶形态，通常是反转信号"⟩

def doubleBottomPattern : Pattern :=
  ⟨"双底", 80 / 100, "看涨", "检测到潜在的双底形态，通常是反转信号"⟩

def ascendingTrianglePattern : Pattern :=
  ⟨"上升三角形", 85 / 100, "看涨", "检测到上升三角形形态，通常是延续信号"⟩

/-- recognize_patterns: empty list when the analyzer is unavailable or
fewer than 20 rows are present; otherwise the patterns whose detectors
fire, in source order. -/
def recognize_patterns (available : Bool) (df : BarTable) :
    List Pattern :=
  if !available then []
  else if df.isEmpty || df.length < 20 then []
  else
    (if detect_head_shoulder_top df then [headShoulderPattern] else []) ++
    (if detect_double_bottom df then [doubleBottomPattern] else []) ++
    (if detect_ascending_triangle df then [ascendingTrianglePattern] else [])

/-- The dict returned by predict_price_movement. -/
structure Prediction where
  prediction : String
  confidence : ℚ
  reason : String
deriving DecidableEq

/-- predict_price_movement.  Negative-index slicing is modelled for
days_ahead ≥ 1 (the source default is 5 and the deep branch needs
2·days_ahead ≤ len); close_price.length is len(df). -/
def predict_price_movement (available : Bool) (df : BarTable)
    (days_ahead : ℕ) : Prediction :=
  if !available then ⟨"中性", 1 / 2, "数据分析器不可用"⟩
  else if df.isEmpty || df.length < 2 * days_ahead then
    ⟨"中性", 1 / 2, "数据不足"⟩
  else
    let close := df.close_price
    if close.length < 2 * days_ahead then ⟨"中性", 1 / 2, "数据不足"⟩
    else
      let recent := close.drop (close.length - days_ahead)
      let previous :=
        (close.drop (close.length - 2 * days_ahead)).take days_ahead
      let recent_avg := recent.sum / (recent.length : ℚ)
      let previous_avg := previous.sum / (previous.length : ℚ)
      let change_rate := (recent_avg - previous_avg) / previous_avg
      let reason :=
        "基于最近" ++ toString days_ahead ++ "天的价格变化趋势"
      if 1 / 20 < change_rate then
        ⟨"看涨", min (1 / 2 + change_rate * 5) (9 / 10), reason⟩
      else if change_rate < -(1 / 20) then
        ⟨"看跌", min (1 / 2 + |change_rate| * 5) (9 / 10), reason⟩
      else ⟨"中性", 1 / 2, reason⟩

/-- One persisted PolarAnalysisResult row. -/
structure PolarAnalysisResult where
  stock_code : String
  analysis_date : ℕ
  pattern_name : String
  confidence : ℚ
  prediction : String
  details : String
deriving DecidableEq

/-- Python "%.2f" formatting of a nonnegative rational (confidences lie
in [0.5, 0.9]): round to the nearest hundredth and print two decimal
digits. -/
def fmt2 (q : ℚ) : String :=
  let n := (⌊q * 100 + 1 / 2⌋).toNat
  toString (n / 100) ++ "." ++
    (if n % 100 < 10 then "0" else "") ++ toString (n % 100)

/-- generate_analysis_report: one result row per detected pattern; when
at least one pattern was found, the first row's prediction is
overwritten with the overall prediction and the overall prediction,
two-decimal confidence, and reason are appended to its details.
analysis_date stands for datetime.now().date(). -/
def generate_analysis_report (available : Bool) (stock_code : String)
    (df : BarTable) (analysis_date : ℕ) : List PolarAnalysisResult :=
  if df.isEmpty then []
  else
    let patterns := recognize_patterns available df
    let prediction := predict_price_movement available df 5
    let results := patterns.map (fun p =>
      (⟨stock_code, analysis_date, p.pattern_name, p.confidence,
        p.prediction, p.details⟩ : PolarAnalysisResult))
    match results with
    | [] => []
    | r0 :: rest =>
      { r0 with
        prediction := prediction.prediction,
        details := r0.details ++ "\n总体预测: " ++ prediction.prediction
          ++ "\n置信度: " ++ fmt2 prediction.confidence
          ++ "\n原因: " ++ prediction.reason } :: rest

end PolarAnalyzer

/-! ## RSI series: src/analysis/technical_analyzer.py _calculate_rsi -/

namespace TechnicalAnalyzer

/-- df['close_price'].diff(): deltas[i] = close[i+1] − close[i]. -/
def priceDeltas (cs : List ℚ) : List ℚ :=
  List.zipWith (fun a b => a - b) cs.tail cs

/-- delta.where(delta > 0, 0): positive deltas, zero elsewhere. -/
def gainSeries (cs : List ℚ) : List ℚ :=
  (priceDeltas cs).map (fun d => if 0 < d then d else 0)

/-- (-delta.where(delta < 0, 0)): negated negative deltas, zero
elsewhere. -/
def lossSeries (cs : List ℚ) : List ℚ :=
  (priceDeltas cs).map (fun d => if d < 0 then -d else 0)

/-- rolling(window=14).mean() of the gains over the window of deltas
starting at index i. -/
def avg_gain (cs : List ℚ) (i : ℕ) : ℚ :=
  (((gainSeries cs).drop i).take 14).sum / 14

/-- rolling(window=14).mean() of the losses over the same window. -/
def avg_loss (cs : List ℚ) (i : ℕ) : ℚ :=
  (((lossSeries cs).drop i).take 14).sum / 14

/-- RS = average gain / average loss on the window. -/
def rsOf (cs : List ℚ) (i : ℕ) : ℚ := avg_gain cs i / avg_loss cs i

/-- RSI = 100 − 100/(1 + RS) on the 14-delta window starting at i; this
is the value of the RSI column where the rolling windows are full and
the average loss is nonzero (elsewhere the float computation is NaN or
the degenerate all-gain case). -/
def rsi (cs : List ℚ) (i : ℕ) : ℚ := 100 - 100 / (1 + rsOf cs i)

end TechnicalAnalyzer

/-! ## Pandas object model with an explicit heap

calculate_all_indicators (technical_analyzer.py) and
clean_stock_daily_data (data_processor.py) both start from df.copy()
and then mutate only the copy, in place.  To state that the caller's
DataFrame object is left unchanged, DataFrames live on an explicit
heap of references; .copy() allocates a fresh reference and every
in-place operation is a mutation of one reference.  Cells are real
numbers (rolling standard deviations take square roots), strings, or
the missing-value marker NaN. -/

noncomputable section

namespace Pandas

inductive Cell where
  | num (x : ℝ)
  | str (s : String)
  | null

/-- A DataFrame value: named columns of cells (all columns of one frame
share the row count). -/
structure PTable where
  cols : List (String × List Cell)

def PTable.col (t : PTable) (name : String) : List Cell :=
  ((t.cols.find? (fun p => p.1 == name)).map (fun p => p.2)).getD []

def PTable.hasCol (t : PTable) (name : String) : Bool :=
  t.cols.any (fun p => p.1 == name)

/-- df[name] = column (replaces an existing column, else appends). -/
def PTable.setCol (t : PTable) (name : String) (c : List Cell) : PTable :=
  if t.hasCol name then
    ⟨t.cols.map (fun p => if p.1 == name then (name, c) else p)⟩
  else ⟨t.cols ++ [(name, c)]⟩

/-- len(df). -/
def PTable.length (t : PTable) : ℕ :=
  ((t.cols.head?).map (fun p => p.2.length)).getD 0

/-- df.empty: an axis of length zero. -/
def PTable.isEmpty (t : PTable) : Bool :=
  t.cols.isEmpty || t.length == 0

def Cell.toNum : Cell → Option ℝ
  | .num x => some x
  | _ => none

def ofNum : Option ℝ → Cell
  | some x => Cell.num x
  | none => Cell.null

def toNums (cs : List Cell) : List (Option ℝ) := cs.map Cell.toNum

def ofNums (xs : List (Option ℝ)) : List Cell := xs.map ofNum

/-- Elementwise binary arithmetic; NaN propagates. -/
def omap2 (f : ℝ → ℝ → ℝ) : Option ℝ → Option ℝ → Option ℝ
  | some a, some b => some (f a b)
  | _, _ => none

/-- Elementwise division; a zero divisor has no numeric value in this
model (the float result would be ±inf or NaN). -/
def odiv : Option ℝ → Option ℝ → Option ℝ
  | some a, some b => if b = 0 then none else some (a / b)
  | _, _ => none

def oget (xs : List (Option ℝ)) (i : ℕ) : Option ℝ := xs.getD i none

def windowAt (xs : List (Option ℝ)) (w i : ℕ) : List (Option ℝ) :=
  (xs.drop (i + 1 - w)).take w

def allSome (ys : List (Option ℝ)) : Bool := ys.all (fun y => y.isSome)

def vals (ys : List (Option ℝ)) : List ℝ := ys.map (fun y => y.getD 0)

/-- rolling(window=w).mean(): defined once w observations are
available and the window holds no NaN. -/
def rollingMean (w : ℕ) (xs : List (Option ℝ)) : List (Option ℝ) :=
  (List.range xs.length).map (fun i =>
    if i + 1 < w then none
    else
      let win := windowAt xs w i
      if allSome win then some ((vals win).sum / (w : ℝ)) else none)

/-- rolling(window=w).std(): sample standard deviation (ddof = 1). -/
def rollingStd (w : ℕ) (xs : List (Option ℝ)) : List (Option ℝ) :=
  (List.range xs.length).map (fun i =>
    if i + 1 < w then none
    else
      let win := windowAt xs w i
      if allSome win then
        let m := (vals win).sum / (w : ℝ)
        some (Real.sqrt
          (((vals win).map (fun x => (x - m) ^ 2)).sum / ((w : ℝ) - 1)))
      else none)

def rollingMin (w : ℕ) (xs : List (Option ℝ)) : List (Option ℝ) :=
  (List.range xs.length).map (fun i =>
    if i + 1 < w then none
    else
      let win := windowAt xs w i
      if allSome win then
        match vals win with
        | [] => none
        | v :: vs => some (vs.foldl min v)
      else none)

def rollingMax (w : ℕ) (xs : List (Option ℝ)) : List (Option ℝ) :=
  (List.range xs.length).map (fun i =>
    if i + 1 < w then none
    else
      let win := windowAt xs w i
      if allSome win then
        match vals win with
        | [] => none
        | v :: vs => some (vs.foldl max v)
      else none)

/-- series.shift(k). -/
def shiftSeries (k : ℕ) (xs : List (Option ℝ)) : List (Option ℝ) :=
  (List.replicate k none ++ xs).take xs.length

/-- series.diff(). -/
def diffSeries (xs : List (Option ℝ)) : List (Option ℝ) :=
  (List.range xs.length).map (fun i =>
    if i = 0 then none
    else omap2 (fun a b => a - b) (oget xs i) (oget xs (i - 1)))

/-- series.pct_change(). -/
def pctChange (xs : List (Option ℝ)) : List (Option ℝ) :=
  (List.range xs.length).map (fun i =>
    if i = 0 then none
    else odiv (omap2 (fun a b => a - b) (oget xs i) (oget xs (i - 1)))
           (oget xs (i - 1)))

/-- ewm(adjust=False).mean() recurrence y = y_prev + α(x − y_prev);
NaN inputs carry the previous smoothed value forward (position-based
NaN re-weighting of pandas is not modelled; no proved property reads
these values). -/
def ewmGo (alpha : ℝ) : Option ℝ → List (Option ℝ) → List (Option ℝ)
  | _, [] => []
  | prev, x :: xs =>
    match x with
    | none => prev :: ewmGo alpha prev xs
    | some v =>
      match prev with
      | none => some v :: ewmGo alpha (some v) xs
      | some p =>
        some (p + alpha * (v - p)) :: ewmGo alpha (some (p + alpha * (v - p))) xs

def ewmMean (alpha : ℝ) (xs : List (Option ℝ)) : List (Option ℝ) :=
  ewmGo alpha none xs

def sub2 (a b : List (Option ℝ)) : List (Option ℝ) :=
  List.zipWith (omap2 (fun x y => x - y)) a b

def add2 (a b : List (Option ℝ)) : List (Option ℝ) :=
  List.zipWith (omap2 (fun x y => x + y)) a b

def div2 (a b : List (Option ℝ)) : List (Option ℝ) :=
  List.zipWith odiv a b

def smul (c : ℝ) (xs : List (Option ℝ)) : List (Option ℝ) :=
  xs.map (fun o => o.map (fun x => c * x))

def ncol (t : PTable) (name : String) : List (Option ℝ) :=
  toNums (t.col name)

def setn (t : PTable) (name : String) (xs : List (Option ℝ)) : PTable :=
  t.setCol name (ofNums xs)

/-! Heap of DataFrame objects. -/

abbrev Ref := ℕ

abbrev Heap := List (Ref × PTable)

def hget (h : Heap) (r : Ref) : Option PTable :=
  ((h.find? (fun p => p.1 == r)).map (fun p => p.2))

def hset (h : Heap) (r : Ref) (t : PTable) : Heap :=
  h.map (fun p => if p.1 == r then (r, t) else p)

def fresh (h : Heap) : Ref := (h.map (fun p => p.1)).foldr max 0 + 1

/-- df.copy(): a fresh object holding the same table value. -/
def halloc (h : Heap) (t : PTable) : Heap × Ref :=
  ((fresh h, t) :: h, fresh h)

/-- An in-place method call on the object behind r. -/
def mutate (h : Heap) (r : Ref) (f : PTable → PTable) : Heap :=
  match hget h r with
  | some t => hset h r (f t)
  | none => h

end Pandas

/-! ## Indicator computation: technical_analyzer.py column operations -/

namespace TechnicalAnalyzer

open Pandas

/-- _calculate_moving_averages: MA5..MA250 rolling means and EMA12/26
exponential means (span s gives α = 2/(s+1)) of the close. -/
def calculate_moving_averages (t : PTable) : PTable :=
  let t := setn t "MA5" (rollingMean 5 (ncol t "close_price"))
  let t := setn t "MA10" (rollingMean 10 (ncol t "close_price"))
  let t := setn t "MA20" (rollingMean 20 (ncol t "close_price"))
  let t := setn t "MA30" (rollingMean 30 (ncol t "close_price"))
  let t := setn t "MA60" (rollingMean 60 (ncol t "close_price"))
  let t := setn t "MA120" (rollingMean 120 (ncol t "close_price"))
  let t := setn t "MA250" (rollingMean 250 (ncol t "close_price"))
  let t := setn t "EMA12" (ewmMean (2 / 13) (ncol t "close_price"))
  setn t "EMA26" (ewmMean (2 / 27) (ncol t "close_price"))

/-- _calculate_macd: recompute the EMAs if absent, then MACD line,
9-span signal line, histogram. -/
def calculate_macd (t : PTable) : PTable :=
  let t := if t.hasCol "EMA12" && t.hasCol "EMA26" then t
           else calculate_moving_averages t
  let t := setn t "MACD" (sub2 (ncol t "EMA12") (ncol t "EMA26"))
  let t := setn t "Signal_Line" (ewmMean (2 / 10) (ncol t "MACD"))
  setn t "MACD_Hist" (sub2 (ncol t "MACD") (ncol t "Signal_Line"))

/-- _calculate_rsi (window 14): delta.where substitutes 0 where the
condition fails, NaN deltas included. -/
def calculate_rsi (t : PTable) : PTable :=
  let delta := diffSeries (ncol t "close_price")
  let gain := rollingMean 14 (delta.map (fun d =>
    match d with
    | some x => some (if 0 < x then x else 0)
    | none => some 0))
  let loss := rollingMean 14 (delta.map (fun d =>
    match d with
    | some x => some (if x < 0 then -x else 0)
    | none => some 0))
  let rs := div2 gain loss
  setn t "RSI" (rs.map (fun o => o.map (fun r => 100 - 100 / (1 + r))))

/-- _calculate_bollinger_bands (window 20, 2 standard deviations). -/
def calculate_bollinger_bands (t : PTable) : PTable :=
  let t := setn t "SMA20" (rollingMean 20 (ncol t "close_price"))
  let t := setn t "STD20" (rollingStd 20 (ncol t "close_price"))
  let t := setn t "Upper_Band"
    (add2 (ncol t "SMA20") (smul 2 (ncol t "STD20")))
  let t := setn t "Lower_Band"
    (sub2 (ncol t "SMA20") (smul 2 (ncol t "STD20")))
  setn t "BB_Width"
    (div2 (sub2 (ncol t "Upper_Band") (ncol t "Lower_Band"))
      (ncol t "SMA20"))

/-- _calculate_kdj (n=9, m1=m2=3; com c gives α = 1/(1+c)). -/
def calculate_kdj (t : PTable) : PTable :=
  let low_n := rollingMin 9 (ncol t "low_price")
  let high_n := rollingMax 9 (ncol t "high_price")
  let t := setn t "RSV"
    (smul 100 (div2 (sub2 (ncol t "close_price") low_n)
      (sub2 high_n low_n)))
  let t := setn t "K" (ewmMean (1 / 3) (ncol t "RSV"))
  let t := setn t "D" (ewmMean (1 / 3) (ncol t "K"))
  setn t "J" (sub2 (smul 3 (ncol t "K")) (smul 2 (ncol t "D")))

/-- _calculate_volume_indicators. -/
def calculate_volume_indicators (t : PTable) : PTable :=
  let t := setn t "MA_Volume5" (rollingMean 5 (ncol t "volume"))
  let t := setn t "MA_Volume10" (rollingMean 10 (ncol t "volume"))
  setn t "Volume_Ratio"
    (div2 (ncol t "volume") (shiftSeries 1 (ncol t "volume")))

/-- _calculate_momentum. -/
def calculate_momentum (t : PTable) : PTable :=
  let t := setn t "Momentum"
    (sub2 (ncol t "close_price") (shiftSeries 10 (ncol t "close_price")))
  setn t "ROC"
    (smul 100 (div2
      (sub2 (ncol t "close_price") (shiftSeries 10 (ncol t "close_price")))
      (shiftSeries 10 (ncol t "close_price"))))

/-- _calculate_volatility: daily returns and annualized 20-day
volatility. -/
def calculate_volatility (t : PTable) : PTable :=
  let t := setn t "Daily_Return" (pctChange (ncol t "close_price"))
  setn t "Volatility"
    (smul (Real.sqrt 252) (rollingStd 20 (ncol t "Daily_Return")))

/-- calculate_all_indicators: empty input is returned as is; otherwise
df.copy() allocates a fresh object and each indicator family is
computed by an in-place call on the copy, which is returned. -/
def calculate_all_indicators (h : Heap) (df : Ref) : Heap × Ref :=
  match hget h df with
  | none => (h, df)
  | some t =>
    if t.isEmpty then (h, df)
    else
      let h1 := (halloc h t).1
      let c := (halloc h t).2
      let h2 := mutate h1 c calculate_moving_averages
      let h3 := mutate h2 c calculate_macd
      let h4 := mutate h3 c calculate_rsi
      let h5 := mutate h4 c calculate_bollinger_bands
      let h6 := mutate h5 c calculate_kdj
      let h7 := mutate h6 c calculate_volume_indicators
      let h8 := mutate h7 c calculate_momentum
      let h9 := mutate h8 c calculate_volatility
      (h9, c)

end TechnicalAnalyzer

/-! ## Bar-table cleaning: data_processor.py clean_stock_daily_data -/

namespace DataProcessor

open Pandas

/-- The fixed Chinese/alternate-English to canonical column mapping. -/
def column_mapping : List (String × String) :=
  [("日期", "trade_date"), ("trading_date", "trade_date"),
   ("开盘", "open_price"), ("开盘价", "open_price"),
   ("最高", "high_price"), ("最高价", "high_price"),
   ("最低", "low_price"), ("最低价", "low_price"),
   ("收盘", "close_price"), ("收盘价", "close_price"),
   ("成交量", "volume"), ("成交额", "amount"),
   ("换手率", "turnover_rate"), ("涨跌幅", "change_percent")]

def renameCol (t : PTable) (o n : String) : PTable :=
  if t.hasCol o then
    ⟨t.cols.map (fun p => if p.1 == o then (n, p.2) else p)⟩
  else t

/-- Step 1: rename each mapped column that is present. -/
def renameColumns (t : PTable) : PTable :=
  column_mapping.foldl (fun t p => renameCol t p.1 p.2) t

/-- pd.to_datetime followed by strftime of one date cell.  The bar
pipeline feeds dates already in 8-digit YYYYMMDD string form, on which
the conversion is the identity; other encodings are outside the
modelled input space (a parse failure makes the source skip the whole
step). -/
def formatDateCell : Cell → Cell
  | .str s => .str s
  | c => c

/-- Step 2: normalize the trade_date column when present. -/
def normalizeTradeDate (t : PTable) : PTable :=
  if t.hasCol "trade_date" then
    t.setCol "trade_date" ((t.col "trade_date").map formatDateCell)
  else t

def numeric_columns : List String :=
  ["open_price", "high_price", "low_price", "close_price", "volume",
   "amount", "turnover_rate", "change_percent"]

/-- str.replace of the percent sign and thousands separator. -/
def stripPctComma (s : String) : String :=
  String.mk (s.toList.filter (fun c => !(c == '%') && !(c == ',')))

def parseDigits (s : String) : ℕ :=
  s.foldl (fun n c => 10 * n + (c.toNat - 48)) 0

/-- Decimal literal parsing backing pd.to_numeric (plain integer and
point forms; exotic float syntax is outside the modelled inputs). -/
def parseDecimal (s : String) : Option ℚ :=
  let neg := s.startsWith "-"
  let s1 := if neg then s.drop 1 else s
  let v : Option ℚ :=
    match s1.split (fun c => c == '.') with
    | [a] =>
      if 0 < a.length && a.toList.all (fun c => c.isDigit) then
        some ((parseDigits a : ℚ))
      else none
    | [a, b] =>
      if a.toList.all (fun c => c.isDigit) && 0 < b.length &&
          b.toList.all (fun c => c.isDigit) then
        some ((parseDigits a : ℚ) + (parseDigits b : ℚ) / (10 ^ b.length : ℚ))
      else none
    | _ => none
  v.map (fun q => if neg then -q else q)

/-- pd.to_numeric with errors='coerce' on one cell, after the %/comma
strip applied to object columns. -/
def coerceCell : Cell → Cell
  | .num x => .num x
  | .str s =>
    match parseDecimal (stripPctComma s) with
    | some q => .num (q : ℝ)
    | none => .null
  | .null => .null

/-- Step 3: coerce each of the eight numeric columns that is present. -/
def coerceNumerics (t : PTable) : PTable :=
  numeric_columns.foldl (fun t c =>
    if t.hasCol c then t.setCol c ((t.col c).map coerceCell) else t) t

def cellIsNull : Cell → Bool
  | .null => true
  | _ => false

def rowAllNull (t : PTable) (i : ℕ) : Bool :=
  t.cols.all (fun p => cellIsNull (p.2.getD i Cell.null))

/-- Row selection by index list, applied to every column. -/
def reindex (t : PTable) (idxs : List ℕ) : PTable :=
  ⟨t.cols.map (fun p => (p.1, idxs.map (fun i => p.2.getD i Cell.null)))⟩

/-- Step 4a: dropna(how='all'). -/
def dropAllNaRows (t : PTable) : PTable :=
  reindex t ((List.range t.length).filter (fun i => !(rowAllNull t i)))

def ffillGo : Option Cell → List Cell → List Cell
  | _, [] => []
  | prev, c :: cs =>
    match c with
    | .null => (match prev with
                | some p => p
                | none => Cell.null) :: ffillGo prev cs
    | c => c :: ffillGo (some c) cs

def price_columns : List String :=
  ["open_price", "high_price", "low_price", "close_price"]

/-- Step 4b: forward-fill the price columns that are present. -/
def ffillPrices (t : PTable) : PTable :=
  price_columns.foldl (fun t c =>
    if t.hasCol c then t.setCol c (ffillGo none (t.col c)) else t) t

def volume_columns : List String := ["volume", "amount"]

def fillZero : Cell → Cell
  | .null => .num 0
  | c => c

/-- Step 4c: fill missing volume/amount with zero. -/
def fillVolumeZero (t : PTable) : PTable :=
  volume_columns.foldl (fun t c =>
    if t.hasCol c then t.setCol c ((t.col c).map fillZero) else t) t

/-- Sort key order on cells: numbers by value, strings
lexicographically (chronological for 8-digit dates), NaN last;
mixed-type keys are outside the modelled input space. -/
def cellLe (a b : Cell) : Bool :=
  match a, b with
  | .null, _ => false
  | _, .null => true
  | .num x, .num y => decide (x ≤ y)
  | .str s, .str u => (s == u) || decide (s < u)
  | .num _, .str _ => true
  | .str _, .num _ => false

/-- Step 5: sort_values('trade_date') when the column is present. -/
def sortByTradeDate (t : PTable) : PTable :=
  if t.hasCol "trade_date" then
    reindex t (sortLe (fun i j =>
      cellLe ((t.col "trade_date").getD i Cell.null)
        ((t.col "trade_date").getD j Cell.null)) (List.range t.length))
  else t

/-- clean_stock_daily_data: empty input is returned as is; otherwise
df.copy() allocates a fresh object and the renaming, date handling,
numeric coercion, missing-value handling, sorting and index reset are
in-place operations on the copy, which is returned (the index reset is
the identity in this model, which has no separate index). -/
def clean_stock_daily_data (h : Heap) (df : Ref) : Heap × Ref :=
  match hget h df with
  | none => (h, df)
  | some t =>
    if t.isEmpty then (h, df)
    else
      let h1 := (halloc h t).1
      let c := (halloc h t).2
      let h2 := mutate h1 c renameColumns
      let h3 := mutate h2 c normalizeTradeDate
      let h4 := mutate h3 c coerceNumerics
      let h5 := mutate h4 c dropAllNaRows
      let h6 := mutate h5 c ffillPrices
      let h7 := mutate h6 c fillVolumeZero
      let h8 := mutate h7 c sortByTradeDate
      (h8, c)

end DataProcessor

end

/-! ## Concrete sample data used by the witness theorems -/

/-- A 20-row bar table with flat closes, flat highs and rising lows: the
ascending-triangle detector fires and the overall prediction is
neutral. -/
def sampleTriangle : PolarAnalyzer.BarTable :=
  ⟨List.replicate 20 5, List.replicate 20 100,
   (List.range 20).map (fun i => (i : ℚ))⟩

/-- A 15-bar close series alternating up and down by 1: over its first
14 deltas the average gain equals the average loss. -/
def sampleCloses : List ℚ :=
  [10, 11, 10, 11, 10, 11, 10, 11, 10, 11, 10, 11, 10, 11, 10]

noncomputable section

/-- A one-row, one-column DataFrame value for the heap witnesses. -/
def sampleFrame : Pandas.PTable :=
  ⟨[("close_price", [Pandas.Cell.num 1])]⟩

end

/-! # Theorems -/

/-! ## Permutation facts about the sort model -/

theorem insertLe_perm {α : Type} (le : α → α → Bool) (a : α) (l : List α) :
    List.Perm (insertLe le a l) (a :: l) := by
  induction l with
  | nil => simp [insertLe]
  | cons b bs ih =>
    simp only [insertLe]
    by_cases h : le a b = true
    · simp [h]
    · simp only [h]
      exact List.Perm.trans (List.Perm.cons b ih) (List.Perm.swap a b bs)

theorem sortLe_perm {α : Type} (le : α → α → Bool) (l : List α) :
    List.Perm (sortLe le l) l := by
  induction l with
  | nil => simp [sortLe]
  | cons a l ih =>
    simp only [sortLe, List.foldr]
    exact List.Perm.trans (insertLe_perm le a _) (List.Perm.cons a ih)

/-! ## C9: empty input to the save operations -/

/-- C9: given an empty tabular input, save_stock_basic_info and
save_stock_daily_data each report success (True) while leaving the
stored rows untouched. -/
theorem save_empty_input_reports_success (db1 : List DbStorage.StockRow)
    (db2 : List DbStorage.DailyRow) (code : String) :
    DbStorage.save_stock_basic_info db1 [] = (db1, true)
    ∧ DbStorage.save_stock_daily_data db2 code [] = (db2, true) :=
  ⟨rfl, rfl⟩

/-- C9 witness: both saves on concrete stores with empty input. -/
theorem save_empty_input_reports_success_witness :
    DbStorage.save_stock_basic_info [] [] = ([], true)
    ∧ DbStorage.save_stock_daily_data [] "600000" [] = ([], true) :=
  ⟨(save_empty_input_reports_success [] [] "600000").1,
   (save_empty_input_reports_success [] [] "600000").2⟩

/-! ## C4: staleness detector -/

/-- C4: is_data_outdated is true with no stored data; false when the
gap from the latest stored date to today is within the threshold; when
the gap exceeds the threshold it is true exactly when the trading
calendar for the gap is nonempty; and any exception (in the session
setup or the calendar call) yields true. -/
theorem is_data_outdated_spec (today latest thr : ℤ)
    (td : ℤ → ℤ → Except BaseClient.PyExn (List ℤ))
    (e1 e2 : BaseClient.PyExn) (ds : List ℤ) :
    BackendMain.is_data_outdated (.error e1) today thr td = true
    ∧ BackendMain.is_data_outdated (.ok none) today thr td = true
    ∧ (today - latest ≤ thr →
        BackendMain.is_data_outdated (.ok (some latest)) today thr td = false)
    ∧ (thr < today - latest → td (latest + 1) today = .ok ds →
        (BackendMain.is_data_outdated (.ok (some latest)) today thr td = true
          ↔ 0 < ds.length))
    ∧ (thr < today - latest → td (latest + 1) today = .error e2 →
        BackendMain.is_data_outdated (.ok (some latest)) today thr td = true) := by
  refine ⟨rfl, rfl, ?_, ?_, ?_⟩
  · intro h
    simp [BackendMain.is_data_outdated, not_lt.mpr h]
  · intro h hok
    simp [BackendMain.is_data_outdated, h, hok]
  · intro h herr
    simp [BackendMain.is_data_outdated, h, herr]

/-- C4 witness: latest date 0, today 10, threshold 1, calendar with one
trading day in the gap: the data is reported outdated. -/
theorem is_data_outdated_spec_witness :
    BackendMain.is_data_outdated (.ok (some 0)) 10 1 (fun _ _ => .ok [5]) = true := by
  have h := is_data_outdated_spec 10 0 1 (fun _ _ => .ok [5])
    (.other "RuntimeError" "") (.other "RuntimeError" "") [5]
  exact (h.2.2.2.1 (by norm_num) rfl).mpr (by norm_num)

/-! ## C3: health check -/

/-- C3 counterexample: with no recorded error and check_api set, a live
get_stock_basic_info call that produces an empty DataFrame still makes
is_healthy report healthy, so a non-empty result is not required. -/
theorem is_healthy_accepts_empty_result :
    BaseClient.is_healthy ⟨none, none⟩ 1000 true "AkshareClient"
      (fun _ => .ok BaseClient.emptyTable) = true
    ∧ (BaseClient.public_fetch ⟨none, none⟩ 1000 "AkshareClient"
        "get_stock_basic_info" [] (fun _ => .ok BaseClient.emptyTable)).1.cols = [] :=
  ⟨rfl, rfl⟩

/-- C3 (amended): is_healthy reports unhealthy whenever the last
recorded error occurred within the past 300 seconds; otherwise it is
healthy — with check_api set it performs the live get-basic-stock-info
call through the never-throwing wrapper and checks only that a value of
the DataFrame container type came back, which always holds, so
emptiness of the live result is not checked. -/
theorem is_healthy_spec (st : BaseClient.ClientState) (now t : ℤ)
    (check_api : Bool) (cname : String)
    (impl : ℕ → Except BaseClient.PyExn BaseClient.Table) :
    (st.last_error_time = some t → now - t < 300 →
      BaseClient.is_healthy st now check_api cname impl = false)
    ∧ (st.last_error_time = none →
      BaseClient.is_healthy st now check_api cname impl = true)
    ∧ (st.last_error_time = some t → 300 ≤ now - t →
      BaseClient.is_healthy st now check_api cname impl = true) := by
  refine ⟨?_, ?_, ?_⟩
  · intro ht hlt
    simp [BaseClient.is_healthy, BaseClient.hasRecentError, ht, hlt]
  · intro ht
    cases check_api <;>
      simp [BaseClient.is_healthy, BaseClient.hasRecentError, ht,
        BaseClient.isinstance_dataframe]
  · intro ht hge
    cases check_api <;>
      simp [BaseClient.is_healthy, BaseClient.hasRecentError, ht,
        BaseClient.isinstance_dataframe, not_lt.mpr hge]

/-- C3 witness: an error recorded 1000 seconds ago no longer marks the
client unhealthy, even though the live call yields an empty frame. -/
theorem is_healthy_spec_witness :
    BaseClient.is_healthy ⟨none, some 0⟩ 1000 true "AkshareClient"
      (fun _ => .ok BaseClient.emptyTable) = true :=
  (is_healthy_spec ⟨none, some 0⟩ 1000 0 true "AkshareClient"
    (fun _ => .ok BaseClient.emptyTable)).2.2 rfl (by norm_num)

/-! ## C5: insufficient data defaults -/

/-- C5: with fewer than 20 rows recognize_patterns returns the empty
list, and with fewer than 2·days_ahead rows predict_price_movement
returns the neutral, 0.5-confidence, data-insufficient result. -/
theorem insufficient_data_defaults (available : Bool)
    (df : PolarAnalyzer.BarTable) (days_ahead : ℕ) :
    (df.length < 20 → PolarAnalyzer.recognize_patterns available df = [])
    ∧ (df.length < 2 * days_ahead →
        PolarAnalyzer.predict_price_movement true df days_ahead =
          ⟨"中性", 1 / 2, "数据不足"⟩) := by
  constructor
  · intro h
    cases available <;>
      simp [PolarAnalyzer.recognize_patterns, h]
  · intro h
    simp [PolarAnalyzer.predict_price_movement, h]

/-- C5 witness: a one-row table yields no patterns and the neutral
data-insufficient prediction for the default days_ahead of 5. -/
theorem insufficient_data_defaults_witness :
    PolarAnalyzer.recognize_patterns true ⟨[10], [10], [10]⟩ = []
    ∧ PolarAnalyzer.predict_price_movement true ⟨[10], [10], [10]⟩ 5 =
        ⟨"中性", 1 / 2, "数据不足"⟩ :=
  ⟨(insufficient_data_defaults true ⟨[10], [10], [10]⟩ 5).1 (by decide),
   (insufficient_data_defaults true ⟨[10], [10], [10]⟩ 5).2 (by decide)⟩

/-! ## C2: retry policy and the never-throwing wrapper -/

theorem retryGo_attempts_le {α : Type} (f : ℕ → Except BaseClient.PyExn α)
    (delay : ℕ) :
    ∀ (fuel retry : ℕ), (BaseClient.retryGo f delay retry fuel).attempts ≤ fuel := by
  intro fuel
  induction fuel with
  | zero => intro retry; exact Nat.le_refl 0
  | succ n ih =>
    intro retry
    rw [BaseClient.retryGo]
    cases hf : f retry with
    | ok a => simp
    | error e =>
      by_cases he : e.isNetwork = true
      · cases n with
        | zero => simp [he]
        | succ n2 =>
          simp only [he, if_true]
          exact Nat.succ_le_succ (ih (retry + 1))
      · simp [he]

/-- C2: every public operation's retried implementation is attempted at
most 3 times; three network failures in a row sleep 2 then 4 seconds
and surface the third failure; a non-network failure is re-raised at
once with no sleeps; and whatever the failure, the public wrapper
returns an empty DataFrame and records the error message, exception
type name, context and timestamp instead of propagating. -/
theorem retry_policy_and_wrapper
    (impl : ℕ → Except BaseClient.PyExn BaseClient.Table)
    (st : BaseClient.ClientState) (now : ℤ) (cname fname : String)
    (ctx : List (String × String)) :
    ((BaseClient.retry_with_backoff impl).attempts ≤ 3)
    ∧ (∀ e0 e1 e2 : BaseClient.PyExn,
        e0.isNetwork = true → e1.isNetwork = true → e2.isNetwork = true →
        impl 0 = .error e0 → impl 1 = .error e1 → impl 2 = .error e2 →
        (BaseClient.retry_with_backoff impl).sleeps = [2, 4]
        ∧ (BaseClient.retry_with_backoff impl).result = .error e2
        ∧ (BaseClient.retry_with_backoff impl).attempts = 3)
    ∧ (∀ e : BaseClient.PyExn, e.isNetwork = false → impl 0 = .error e →
        (BaseClient.retry_with_backoff impl).attempts = 1
        ∧ (BaseClient.retry_with_backoff impl).sleeps = []
        ∧ (BaseClient.retry_with_backoff impl).result = .error e)
    ∧ (∀ df, (BaseClient.retry_with_backoff impl).result = .ok df →
        (BaseClient.public_fetch st now cname fname ctx impl).1 = df)
    ∧ (∀ e, (BaseClient.retry_with_backoff impl).result = .error e →
        BaseClient.public_fetch st now cname fname ctx impl =
          (BaseClient.emptyTable,
           { last_error := some ⟨cname ++ "." ++ fname ++ " 执行失败: " ++ e.str,
               e.typeName, ctx⟩,
             last_error_time := some now })) := by
  refine ⟨retryGo_attempts_le impl 2 3 0, ?_, ?_, ?_, ?_⟩
  · intro e0 e1 e2 hn0 hn1 hn2 h0 h1 h2
    simp [BaseClient.retry_with_backoff, BaseClient.retryGo,
      h0, h1, h2, hn0, hn1, hn2]
  · intro e hn h0
    simp [BaseClient.retry_with_backoff, BaseClient.retryGo, h0, hn]
  · intro df hok
    simp [BaseClient.public_fetch, hok]
  · intro e herr
    simp [BaseClient.public_fetch, herr, BaseClient.handle_request_error,
      BaseClient.record_error]

/-- C2 witness: an implementation that always times out sleeps 2 then 4
seconds, surfaces the timeout after 3 attempts, and the wrapper turns
it into an empty DataFrame with a recorded TimeoutError. -/
theorem retry_policy_and_wrapper_witness :
    (BaseClient.retry_with_backoff
      (fun _ => .error (.timeoutError "t") :
        ℕ → Except BaseClient.PyExn BaseClient.Table)).sleeps = [2, 4]
    ∧ (BaseClient.public_fetch ⟨none, none⟩ 5 "AkshareClient"
        "get_stock_basic_info" []
        (fun _ => .error (.timeoutError "t"))).1 = BaseClient.emptyTable := by
  have h := retry_policy_and_wrapper
    (fun _ => .error (.timeoutError "t")) ⟨none, none⟩ 5 "AkshareClient"
    "get_stock_basic_info" []
  have h3 := h.2.1 (.timeoutError "t") (.timeoutError "t") (.timeoutError "t")
    rfl rfl rfl rfl rfl rfl
  refine ⟨h3.1, ?_⟩
  rw [h.2.2.2.2 (.timeoutError "t") h3.2.1]

/-! ## C8: RSI bounds and the balanced-window value -/

theorem gainSeries_nonneg (cs : List ℚ) :
    ∀ x ∈ TechnicalAnalyzer.gainSeries cs, 0 ≤ x := by
  intro x hx
  rcases List.mem_map.mp hx with ⟨d, _, rfl⟩
  by_cases hd : 0 < d
  · simp [hd]; linarith
  · simp [hd]

theorem lossSeries_nonneg (cs : List ℚ) :
    ∀ x ∈ TechnicalAnalyzer.lossSeries cs, 0 ≤ x := by
  intro x hx
  rcases List.mem_map.mp hx with ⟨d, _, rfl⟩
  by_cases hd : d < 0
  · simp [hd]; linarith
  · simp [hd]

theorem avg_gain_nonneg (cs : List ℚ) (i : ℕ) :
    0 ≤ TechnicalAnalyzer.avg_gain cs i := by
  unfold TechnicalAnalyzer.avg_gain
  apply div_nonneg _ (by norm_num)
  apply List.sum_nonneg
  intro x hx
  exact gainSeries_nonneg cs x
    (List.mem_of_mem_drop (List.mem_of_mem_take hx))

theorem avg_loss_nonneg (cs : List ℚ) (i : ℕ) :
    0 ≤ TechnicalAnalyzer.avg_loss cs i := by
  unfold TechnicalAnalyzer.avg_loss
  apply div_nonneg _ (by norm_num)
  apply List.sum_nonneg
  intro x hx
  exact lossSeries_nonneg cs x
    (List.mem_of_mem_drop (List.mem_of_mem_take hx))

/-- C8: wherever the 14-bar RSI is defined (a window with nonzero
average loss), it lies in [0, 100]; and on a window whose average gain
equals its average loss (RS = 1) it is exactly 50. -/
theorem rsi_bounded_and_balanced (cs : List ℚ) (i : ℕ)
    (hl : TechnicalAnalyzer.avg_loss cs i ≠ 0) :
    (0 ≤ TechnicalAnalyzer.rsi cs i ∧ TechnicalAnalyzer.rsi cs i ≤ 100)
    ∧ (TechnicalAnalyzer.avg_gain cs i = TechnicalAnalyzer.avg_loss cs i →
        TechnicalAnalyzer.rsi cs i = 50) := by
  have hg : 0 ≤ TechnicalAnalyzer.avg_gain cs i := avg_gain_nonneg cs i
  have hl0 : 0 ≤ TechnicalAnalyzer.avg_loss cs i := avg_loss_nonneg cs i
  have hlpos : 0 < TechnicalAnalyzer.avg_loss cs i :=
    lt_of_le_of_ne hl0 (Ne.symm hl)
  have hrs : 0 ≤ TechnicalAnalyzer.rsOf cs i := div_nonneg hg hl0
  have h1 : (0 : ℚ) < 1 + TechnicalAnalyzer.rsOf cs i := by linarith
  refine ⟨⟨?_, ?_⟩, ?_⟩
  · unfold TechnicalAnalyzer.rsi
    have hle : 100 / (1 + TechnicalAnalyzer.rsOf cs i) ≤ 100 := by
      rw [div_le_iff₀ h1]
      nlinarith
    linarith
  · unfold TechnicalAnalyzer.rsi
    have hpos : 0 < 100 / (1 + TechnicalAnalyzer.rsOf cs i) := by positivity
    linarith
  · intro heq
    unfold TechnicalAnalyzer.rsi TechnicalAnalyzer.rsOf
    rw [heq, div_self hl]
    norm_num

/-- C8 witness: a close series alternating ±1 has average gain equal
to average loss on its first window, and its RSI is exactly 50. -/
theorem rsi_bounded_and_balanced_witness :
    TechnicalAnalyzer.rsi sampleCloses 0 = 50 := by
  have hl : TechnicalAnalyzer.avg_loss sampleCloses 0 = 1 / 2 := by
    simp [TechnicalAnalyzer.avg_loss, TechnicalAnalyzer.lossSeries,
      TechnicalAnalyzer.priceDeltas, sampleCloses]
    norm_num
  have hg : TechnicalAnalyzer.avg_gain sampleCloses 0 = 1 / 2 := by
    simp [TechnicalAnalyzer.avg_gain, TechnicalAnalyzer.gainSeries,
      TechnicalAnalyzer.priceDeltas, sampleCloses]
    norm_num
  exact (rsi_bounded_and_balanced sampleCloses 0
    (by rw [hl]; norm_num)).2 (by rw [hg, hl])

/-! ## C6: the ascending-triangle detector is the only live pattern -/

theorem detect_head_shoulder_top_false (df : PolarAnalyzer.BarTable) :
    PolarAnalyzer.detect_head_shoulder_top df = false := by
  simp only [PolarAnalyzer.detect_head_shoulder_top]
  split
  · rfl
  · split <;> rfl

theorem detect_double_bottom_false (df : PolarAnalyzer.BarTable) :
    PolarAnalyzer.detect_double_bottom df = false := by
  simp only [PolarAnalyzer.detect_double_bottom]
  split
  · rfl
  · split <;> rfl

/-- C6: on a table of at least 20 rows the ascending-triangle detector
fires exactly when the least-squares slope of the lows is positive and
the absolute high-price slope is smaller; and since the other two
detectors are stubs returning False, the ascending-triangle pattern
(confidence 0.85, bullish) is the only pattern recognize_patterns can
emit. -/
theorem ascending_triangle_characterization (available : Bool)
    (df : PolarAnalyzer.BarTable) (h20 : 20 ≤ df.length) :
    (PolarAnalyzer.detect_ascending_triangle df = true ↔
      0 < PolarAnalyzer.lsSlope df.low_price ∧
      |PolarAnalyzer.lsSlope df.high_price| < PolarAnalyzer.lsSlope df.low_price)
    ∧ (∀ p ∈ PolarAnalyzer.recognize_patterns available df,
        p = PolarAnalyzer.ascendingTrianglePattern) := by
  have hnl : ¬ df.length < 20 := Nat.not_lt.mpr h20
  constructor
  · simp [PolarAnalyzer.detect_ascending_triangle, hnl]
  · intro p hp
    have hhs := detect_head_shoulder_top_false df
    have hdb := detect_double_bottom_false df
    cases available with
    | false => simp [PolarAnalyzer.recognize_patterns] at hp
    | true =>
      by_cases hat : PolarAnalyzer.detect_ascending_triangle df = true
      · simp [PolarAnalyzer.recognize_patterns, hhs, hdb, hnl, hat] at hp
        exact hp.2
      · simp [PolarAnalyzer.recognize_patterns, hhs, hdb, hnl, hat] at hp

theorem sampleTriangle_low_slope :
    PolarAnalyzer.lsSlope sampleTriangle.low_price = 1 := by
  simp [PolarAnalyzer.lsSlope, sampleTriangle, List.range_succ]
  norm_num

theorem sampleTriangle_high_slope :
    PolarAnalyzer.lsSlope sampleTriangle.high_price = 0 := by
  simp [PolarAnalyzer.lsSlope, sampleTriangle, List.range_succ, List.replicate]
  norm_num

theorem sampleTriangle_length : sampleTriangle.length = 20 := by
  simp [PolarAnalyzer.BarTable.length, sampleTriangle]

/-- C6 witness: flat highs and rising lows over 20 bars make the
detector fire. -/
theorem ascending_triangle_characterization_witness :
    PolarAnalyzer.detect_ascending_triangle sampleTriangle = true :=
  (ascending_triangle_characterization true sampleTriangle
      (by rw [sampleTriangle_length])).1.mpr
    (by rw [sampleTriangle_low_slope, sampleTriangle_high_slope]; norm_num)

theorem sampleTriangle_detect :
    PolarAnalyzer.detect_ascending_triangle sampleTriangle = true := by
  simp [PolarAnalyzer.detect_ascending_triangle, sampleTriangle_length,
    sampleTriangle_low_slope, sampleTriangle_high_slope]

theorem sampleTriangle_recognize :
    PolarAnalyzer.recognize_patterns true sampleTriangle =
      [PolarAnalyzer.ascendingTrianglePattern] := by
  simp [PolarAnalyzer.recognize_patterns, PolarAnalyzer.BarTable.isEmpty,
    sampleTriangle_length, detect_head_shoulder_top_false,
    detect_double_bottom_false, sampleTriangle_detect]

/-! ## C7: report generation merges the overall prediction into the
single pattern row -/

/-- C7: when exactly one pattern is detected, generate_analysis_report
returns exactly one row; its prediction field carries the overall
price-movement prediction (not the pattern's own), and its details are
the pattern's details followed by the overall prediction, two-decimal
confidence, and reason. -/
theorem report_single_pattern (available : Bool) (code : String)
    (df : PolarAnalyzer.BarTable) (analysis_date : ℕ)
    (p : PolarAnalyzer.Pattern)
    (h1 : PolarAnalyzer.recognize_patterns available df = [p]) :
    PolarAnalyzer.generate_analysis_report available code df analysis_date =
      [{ stock_code := code, analysis_date := analysis_date,
         pattern_name := p.pattern_name, confidence := p.confidence,
         prediction :=
           (PolarAnalyzer.predict_price_movement available df 5).prediction,
         details := p.details ++ "\n总体预测: "
           ++ (PolarAnalyzer.predict_price_movement available df 5).prediction
           ++ "\n置信度: "
           ++ PolarAnalyzer.fmt2
                (PolarAnalyzer.predict_price_movement available df 5).confidence
           ++ "\n原因: "
           ++ (PolarAnalyzer.predict_price_movement available df 5).reason }] := by
  have hne : df.isEmpty = false := by
    cases hE : df.isEmpty
    · rfl
    · exfalso
      have h0 : PolarAnalyzer.recognize_patterns available df = [] := by
        cases available <;> simp [PolarAnalyzer.recognize_patterns, hE]
      rw [h0] at h1
      cases h1
  simp [PolarAnalyzer.generate_analysis_report, hne, h1]

/-- C7 witness: the sample triangle table produces exactly one row,
carrying the neutral overall prediction and the appended detail text. -/
theorem report_single_pattern_witness :
    PolarAnalyzer.generate_analysis_report true "600000" sampleTriangle 20240101 =
      [{ stock_code := "600000", analysis_date := 20240101,
         pattern_name := PolarAnalyzer.ascendingTrianglePattern.pattern_name,
         confidence := PolarAnalyzer.ascendingTrianglePattern.confidence,
         prediction :=
           (PolarAnalyzer.predict_price_movement true sampleTriangle 5).prediction,
         details := PolarAnalyzer.ascendingTrianglePattern.details ++ "\n总体预测: "
           ++ (PolarAnalyzer.predict_price_movement true sampleTriangle 5).prediction
           ++ "\n置信度: "
           ++ PolarAnalyzer.fmt2
                (PolarAnalyzer.predict_price_movement true sampleTriangle 5).confidence
           ++ "\n原因: "
           ++ (PolarAnalyzer.predict_price_movement true sampleTriangle 5).reason }] :=
  report_single_pattern true "600000" sampleTriangle 20240101
    PolarAnalyzer.ascendingTrianglePattern sampleTriangle_recognize

/-! ## C10: the analyzers leave the caller's DataFrame unchanged -/

theorem mem_le_foldr_max (a : ℕ) (l : List ℕ) (h : a ∈ l) :
    a ≤ l.foldr max 0 := by
  induction l with
  | nil => cases h
  | cons b bs ih =>
    rcases List.mem_cons.mp h with rfl | hm
    · exact le_max_left _ _
    · exact le_trans (ih hm) (le_max_right b _)

theorem hget_lt_fresh (h : Pandas.Heap) (r : ℕ) (t : Pandas.PTable)
    (hr : Pandas.hget h r = some t) : r < Pandas.fresh h := by
  unfold Pandas.hget at hr
  rcases Option.map_eq_some'.mp hr with ⟨p, hfind, hp2⟩
  have hmem := List.mem_of_find?_eq_some hfind
  have hpred := List.find?_some hfind
  have hr1 : p.1 = r := by simpa using hpred
  have hkey : p.1 ∈ h.map (fun q => q.1) := List.mem_map_of_mem _ hmem
  have hle := mem_le_foldr_max p.1 (h.map (fun q => q.1)) hkey
  rw [hr1] at hle
  unfold Pandas.fresh
  omega

theorem hget_cons_ne (h : Pandas.Heap) (k r : ℕ) (t : Pandas.PTable)
    (hne : r ≠ k) : Pandas.hget ((k, t) :: h) r = Pandas.hget h r := by
  have hk : (k == r) = false := by
    simp only [beq_eq_false_iff_ne]
    exact fun hh => hne hh.symm
  simp [Pandas.hget, List.find?, hk]

theorem hget_hset_ne (h : Pandas.Heap) (c r : ℕ) (t : Pandas.PTable)
    (hne : r ≠ c) : Pandas.hget (Pandas.hset h c t) r = Pandas.hget h r := by
  induction h with
  | nil => rfl
  | cons p ps ih =>
    obtain ⟨k, v⟩ := p
    by_cases h1 : k = c
    · subst h1
      have hkr : (k == r) = false := by
        simp only [beq_eq_false_iff_ne]
        exact fun hh => hne hh.symm
      simpa [Pandas.hget, Pandas.hset, List.find?, hkr] using ih
    · have hk1 : (k == c) = false := by simp [h1]
      by_cases h2 : k = r
      · subst h2
        simp [Pandas.hget, Pandas.hset, List.find?, hk1]
      · have hk2 : (k == r) = false := by
          simp only [beq_eq_false_iff_ne]
          exact fun hh => h2 hh
        simpa [Pandas.hget, Pandas.hset, List.find?, hk1, hk2] using ih

theorem hget_mutate_ne (h : Pandas.Heap) (c r : ℕ)
    (f : Pandas.PTable → Pandas.PTable) (hne : r ≠ c) :
    Pandas.hget (Pandas.mutate h c f) r = Pandas.hget h r := by
  unfold Pandas.mutate
  cases hh : Pandas.hget h c
  · rfl
  · exact hget_hset_ne h c r _ hne

/-- C10: calculate_all_indicators and clean_stock_daily_data leave the
caller's DataFrame object unchanged — every renaming, coercion, fill,
sort and indicator column lands on the fresh copy, which is the object
returned (a new reference whenever the input is nonempty). -/
theorem analyzers_leave_input_unchanged (h : Pandas.Heap)
    (df : Pandas.Ref) (t : Pandas.PTable)
    (hdf : Pandas.hget h df = some t) :
    Pandas.hget (TechnicalAnalyzer.calculate_all_indicators h df).1 df = some t
    ∧ Pandas.hget (DataProcessor.clean_stock_daily_data h df).1 df = some t
    ∧ (t.isEmpty = false →
        (TechnicalAnalyzer.calculate_all_indicators h df).2 ≠ df
        ∧ (DataProcessor.clean_stock_daily_data h df).2 ≠ df) := by
  have hlt : df < Pandas.fresh h := hget_lt_fresh h df t hdf
  have hne : df ≠ Pandas.fresh h := Nat.ne_of_lt hlt
  cases hE : t.isEmpty with
  | true =>
    refine ⟨?_, ?_, ?_⟩
    · simp [TechnicalAnalyzer.calculate_all_indicators, hdf, hE]
    · simp [DataProcessor.clean_stock_daily_data, hdf, hE]
    · intro hc
      simp [hE] at hc
  | false =>
    refine ⟨?_, ?_, ?_⟩
    · simp only [TechnicalAnalyzer.calculate_all_indicators, hdf, hE,
        Pandas.halloc, Bool.false_eq_true, if_false]
      repeat rw [hget_mutate_ne _ _ _ _ hne]
      rw [hget_cons_ne h (Pandas.fresh h) df t hne]
      exact hdf
    · simp only [DataProcessor.clean_stock_daily_data, hdf, hE,
        Pandas.halloc, Bool.false_eq_true, if_false]
      repeat rw [hget_mutate_ne _ _ _ _ hne]
      rw [hget_cons_ne h (Pandas.fresh h) df t hne]
      exact hdf
    · intro _
      constructor
      · simp only [TechnicalAnalyzer.calculate_all_indicators, hdf, hE,
          Pandas.halloc, Bool.false_eq_true, if_false]
        exact fun hh => hne hh.symm
      · simp only [DataProcessor.clean_stock_daily_data, hdf, hE,
          Pandas.halloc, Bool.false_eq_true, if_false]
        exact fun hh => hne hh.symm

/-- C10 witness: a one-object heap; after both calls the original
reference still holds the original one-row frame. -/
theorem analyzers_leave_input_unchanged_witness :
    Pandas.hget
      (TechnicalAnalyzer.calculate_all_indicators [(0, sampleFrame)] 0).1 0 =
      some sampleFrame
    ∧ Pandas.hget
        (DataProcessor.clean_stock_daily_data [(0, sampleFrame)] 0).1 0 =
      some sampleFrame := by
  have h := analyzers_leave_input_unchanged [(0, sampleFrame)] 0 sampleFrame rfl
  exact ⟨h.1, h.2.1⟩

/-! ## C1: daily-bar round trip and key uniqueness -/

theorem saveOne_not_exists (db : List DbStorage.DailyRow) (code : String)
    (r : DbStorage.BarRecord)
    (h : ∀ x ∈ db, DbStorage.matchesKey code r.trade_date x = false) :
    DbStorage.saveOne db code r = db ++ [DbStorage.newRow code r] := by
  have hany : db.any (DbStorage.matchesKey code r.trade_date) = false := by
    rw [List.any_eq_false]
    intro x hx
    simp [h x hx]
  simp [DbStorage.saveOne, hany]

theorem save_fold_append (code : String) (rs : List DbStorage.BarRecord) :
    ∀ db : List DbStorage.DailyRow,
    (∀ x ∈ db, x.stock_code = code →
        x.trade_date ∉ rs.map DbStorage.BarRecord.trade_date) →
    (rs.map DbStorage.BarRecord.trade_date).Nodup →
    rs.foldl (fun d r => DbStorage.saveOne d code r) db
      = db ++ rs.map (DbStorage.newRow code) := by
  induction rs with
  | nil => intro db _ _; simp
  | cons r tl ih =>
    intro db hdb hnd
    have hmk : ∀ x ∈ db, DbStorage.matchesKey code r.trade_date x = false := by
      intro x hx
      unfold DbStorage.matchesKey
      by_cases hc : x.stock_code = code
      · have hd : x.trade_date ≠ r.trade_date := by
          intro heq
          exact hdb x hx hc (by simp [heq])
        simp [hc, hd]
      · simp [hc]
    have hhead : r.trade_date ∉ tl.map DbStorage.BarRecord.trade_date :=
      (List.nodup_cons.mp (by simpa using hnd)).1
    have hnd2 : (tl.map DbStorage.BarRecord.trade_date).Nodup :=
      (List.nodup_cons.mp (by simpa using hnd)).2
    have hdb2 : ∀ x ∈ db ++ [DbStorage.newRow code r], x.stock_code = code →
        x.trade_date ∉ tl.map DbStorage.BarRecord.trade_date := by
      intro x hx hc
      rcases List.mem_append.mp hx with hx1 | hx2
      · intro hmem
        exact hdb x hx1 hc (by simp [hmem])
      · have hx3 : x = DbStorage.newRow code r := by simpa using hx2
        subst hx3
        simpa [DbStorage.newRow] using hhead
    rw [List.foldl_cons, saveOne_not_exists db code r hmk,
      ih (db ++ [DbStorage.newRow code r]) hdb2 hnd2]
    simp

theorem filter_of_map {α β : Type} (f : α → β) (p : β → Bool) (l : List α) :
    (l.map f).filter p = (l.filter (fun x => p (f x))).map f := by
  induction l with
  | nil => rfl
  | cons a tl ih =>
    simp only [List.map_cons, List.filter_cons]
    cases hpa : p (f a) <;> simp [hpa, ih]

theorem filter_date_singleton (code : String) (r : DbStorage.BarRecord) :
    ∀ rs : List DbStorage.BarRecord, r ∈ rs →
    (rs.map DbStorage.BarRecord.trade_date).Nodup →
    (rs.map (DbStorage.newRow code)).filter
        (fun x => x.trade_date == r.trade_date) = [DbStorage.newRow code r] := by
  intro rs
  induction rs with
  | nil => intro h; cases h
  | cons a tl ih =>
    intro hmem hnd
    have hhead : a.trade_date ∉ tl.map DbStorage.BarRecord.trade_date :=
      (List.nodup_cons.mp (by simpa using hnd)).1
    have hnd2 : (tl.map DbStorage.BarRecord.trade_date).Nodup :=
      (List.nodup_cons.mp (by simpa using hnd)).2
    rcases List.mem_cons.mp hmem with rfl | htl
    · simp only [List.map_cons, List.filter_cons]
      have htail : (tl.map (DbStorage.newRow code)).filter
          (fun x => x.trade_date == r.trade_date) = [] := by
        apply List.filter_eq_nil_iff.mpr
        intro x hx
        rcases List.mem_map.mp hx with ⟨b, hb, rfl⟩
        simp only [DbStorage.newRow, beq_iff_eq]
        intro heq
        exact hhead (heq ▸ List.mem_map_of_mem DbStorage.BarRecord.trade_date hb)
      simp [DbStorage.newRow, htail]
    · have hda : a.trade_date ≠ r.trade_date := by
        intro heq
        exact hhead (heq ▸ List.mem_map_of_mem DbStorage.BarRecord.trade_date htl)
      simp only [List.map_cons, List.filter_cons]
      have hF : ((DbStorage.newRow code a).trade_date == r.trade_date) = false := by
        simp [DbStorage.newRow, hda]
      simp [hF, ih htl hnd2]

theorem updateFirst_append (code : String) (d : ℕ)
    (f : DbStorage.DailyRow → DbStorage.DailyRow)
    (db : List DbStorage.DailyRow) (y : DbStorage.DailyRow)
    (h : ∀ x ∈ db, DbStorage.matchesKey code d x = false)
    (hy : DbStorage.matchesKey code d y = true) :
    DbStorage.updateFirst code d f (db ++ [y]) = db ++ [f y] := by
  induction db with
  | nil => simp [DbStorage.updateFirst, hy]
  | cons x xs ih =>
    have hx := h x (by simp)
    have hrest := ih (fun z hz => h z (by simp [hz]))
    rw [List.cons_append, DbStorage.updateFirst]
    simp only [hx, Bool.false_eq_true, if_false]
    rw [hrest, List.cons_append]

/-- C1: saving bar records with pairwise-distinct dates for a stock
code with no prior rows and reading them back over a covering date
range yields, for each record's date, exactly one row whose eight bar
fields equal the record's values; and saving the same (code, date)
record twice leaves exactly one stored row for that key. -/
theorem daily_roundtrip_and_unique
    (db0 : List DbStorage.DailyRow) (code : String)
    (rs : List DbStorage.BarRecord) (s e : ℕ)
    (hclean : ∀ x ∈ db0, x.stock_code ≠ code)
    (hdist : (rs.map DbStorage.BarRecord.trade_date).Nodup)
    (hrange : ∀ r ∈ rs, s ≤ r.trade_date ∧ r.trade_date ≤ e) :
    (∀ r ∈ rs,
      (DbStorage.get_stock_daily_data
          (DbStorage.save_stock_daily_data db0 code rs).1 code
          (some s) (some e)).filter
        (fun o => o.trade_date == r.trade_date)
        = [DbStorage.toOut (DbStorage.newRow code r)])
    ∧ (∀ r : DbStorage.BarRecord,
        ((DbStorage.save_stock_daily_data
            (DbStorage.save_stock_daily_data db0 code [r]).1 code [r]).1).countP
          (DbStorage.matchesKey code r.trade_date) = 1) := by
  constructor
  · intro r hr
    have hnonempty : rs.isEmpty = false := by
      cases rs
      · cases hr
      · rfl
    have hfold : (DbStorage.save_stock_daily_data db0 code rs).1
        = db0 ++ rs.map (DbStorage.newRow code) := by
      simp only [DbStorage.save_stock_daily_data, hnonempty,
        Bool.false_eq_true, if_false]
      exact save_fold_append code rs db0
        (fun x hx hc => absurd hc (hclean x hx)) hdist
    rw [hfold]
    unfold DbStorage.get_stock_daily_data
    have hfilter : (db0 ++ rs.map (DbStorage.newRow code)).filter
        (fun x => x.stock_code == code
          && DbStorage.inRange (some s) (some e) x.trade_date)
        = rs.map (DbStorage.newRow code) := by
      rw [List.filter_append]
      have h1 : db0.filter (fun x => x.stock_code == code
          && DbStorage.inRange (some s) (some e) x.trade_date) = [] := by
        apply List.filter_eq_nil_iff.mpr
        intro x hx
        simp [hclean x hx]
      have h2 : (rs.map (DbStorage.newRow code)).filter
          (fun x => x.stock_code == code
            && DbStorage.inRange (some s) (some e) x.trade_date)
          = rs.map (DbStorage.newRow code) := by
        apply List.filter_eq_self.mpr
        intro x hx
        rcases List.mem_map.mp hx with ⟨b, hb, rfl⟩
        have hbr := hrange b hb
        simp [DbStorage.newRow, DbStorage.inRange, hbr.1, hbr.2]
      rw [h1, h2, List.nil_append]
    rw [hfilter]
    rw [filter_of_map DbStorage.toOut (fun o => o.trade_date == r.trade_date)]
    have hperm := (sortLe_perm (fun a b => decide (a.trade_date ≤ b.trade_date))
        (rs.map (DbStorage.newRow code))).filter
      (fun x => (DbStorage.toOut x).trade_date == r.trade_date)
    have hsing : (rs.map (DbStorage.newRow code)).filter
        (fun x => (DbStorage.toOut x).trade_date == r.trade_date)
        = [DbStorage.newRow code r] := by
      have hbase := filter_date_singleton code r rs hr hdist
      simpa [DbStorage.toOut] using hbase
    rw [hsing] at hperm
    rw [List.perm_singleton.mp hperm]
    rfl
  · intro r
    have h1 : (DbStorage.save_stock_daily_data db0 code [r]).1
        = db0 ++ [DbStorage.newRow code r] := by
      simp only [DbStorage.save_stock_daily_data, List.isEmpty_cons,
        Bool.false_eq_true, if_false, List.foldl_cons, List.foldl_nil]
      exact saveOne_not_exists db0 code r
        (fun x hx => by simp [DbStorage.matchesKey, hclean x hx])
    have hmy : DbStorage.matchesKey code r.trade_date
        (DbStorage.newRow code r) = true := by
      simp [DbStorage.matchesKey, DbStorage.newRow]
    have h2 : (DbStorage.save_stock_daily_data
        (db0 ++ [DbStorage.newRow code r]) code [r]).1
        = db0 ++ [DbStorage.updateRow r (DbStorage.newRow code r)] := by
      have hany : (db0 ++ [DbStorage.newRow code r]).any
          (DbStorage.matchesKey code r.trade_date) = true := by
        rw [List.any_append]
        simp [hmy]
      simp only [DbStorage.save_stock_daily_data, List.isEmpty_cons,
        Bool.false_eq_true, if_false, List.foldl_cons, List.foldl_nil,
        DbStorage.saveOne, hany, if_true]
      exact updateFirst_append code r.trade_date _ db0 (DbStorage.newRow code r)
        (fun x hx => by simp [DbStorage.matchesKey, hclean x hx]) hmy
    rw [h1, h2, List.countP_append]
    have hc0 : db0.countP (DbStorage.matchesKey code r.trade_date) = 0 :=
      List.countP_eq_zero.mpr
        (fun x hx => by simp [DbStorage.matchesKey, hclean x hx])
    have hcu : DbStorage.matchesKey code r.trade_date
        (DbStorage.updateRow r (DbStorage.newRow code r)) = true := by
      simp [DbStorage.matchesKey, DbStorage.updateRow, DbStorage.newRow]
    simp [hc0, List.countP_cons, hcu]

/-- C1 witness: two bars saved for a fresh code read back as exactly
one row each with the saved fields, and a double save of one bar keeps
a single row for its (code, date) key. -/
theorem daily_roundtrip_and_unique_witness :
    (DbStorage.get_stock_daily_data
        (DbStorage.save_stock_daily_data [] "600000"
          [⟨20240101, 10, 11, 9, 10, 1000, 10000, 1, 2⟩,
           ⟨20240102, 11, 12, 10, 11, 1100, 11000, 2, 3⟩]).1
        "600000" (some 20240101) (some 20240131)).filter
      (fun o => o.trade_date == 20240101)
      = [DbStorage.toOut (DbStorage.newRow "600000"
          ⟨20240101, 10, 11, 9, 10, 1000, 10000, 1, 2⟩)]
    ∧ ((DbStorage.save_stock_daily_data
          (DbStorage.save_stock_daily_data [] "600000"
            [⟨20240101, 10, 11, 9, 10, 1000, 10000, 1, 2⟩]).1 "600000"
          [⟨20240101, 10, 11, 9, 10, 1000, 10000, 1, 2⟩]).1).countP
        (DbStorage.matchesKey "600000" 20240101) = 1 := by
  have h := daily_roundtrip_and_unique [] "600000"
    [⟨20240101, 10, 11, 9, 10, 1000, 10000, 1, 2⟩,
     ⟨20240102, 11, 12, 10, 11, 1100, 11000, 2, 3⟩] 20240101 20240131
    (by simp) (by decide) (by decide)
  exact ⟨h.1 _ (List.mem_cons_self _ _),
         h.2 ⟨20240101, 10, 11, 9, 10, 1000, 10000, 1, 2⟩⟩
